import Mathlib

/-!
Verification of the run storage gateway (`src/ocr/services/storage.py`).

The gateway owns the on-disk lifecycle of one extraction run.  We embed it
shallowly: an absolute POSIX path is its list of components from the root,
the filesystem is a finite record of existing directories and files, and
every method of `RunStorage` becomes a pure function that threads the
filesystem (and, for `create_run_dir`, the storage record) explicitly,
returning `Except Err` results that mirror the Python exceptions.
-/

namespace OcrStorage

/-! ## Paths -/

/-- An absolute path, as its list of components below the filesystem root. -/
abbrev PyPath := List String

/-- Split a character list at every occurrence of `sep`; components may be empty. -/
def splitCharAux (sep : Char) : List Char → List Char → List (List Char)
  | [], acc => [acc.reverse]
  | c :: rest, acc =>
    if c = sep then acc.reverse :: splitCharAux sep rest []
    else splitCharAux sep rest (c :: acc)

/-- Split a string at every occurrence of `sep`. -/
def splitChar (sep : Char) (s : String) : List (List Char) := splitCharAux sep s.data []

/-- The relative components denoted by a path string: split on the slash,
dropping empty components and the single-dot component, as pathlib does. -/
def pySplitRel (s : String) : List String :=
  ((splitChar '/' s).filter (fun c => c ≠ [] ∧ c ≠ ['.'])).map (fun c => String.mk c)

/-- Whether a path string is absolute (starts with a slash). -/
def pyIsAbs (s : String) : Bool := s.data.head? = some '/'

/-- Python pathlib join `p / s`: an absolute right operand replaces the left one. -/
def pyJoin (p : PyPath) (s : String) : PyPath :=
  if pyIsAbs s then pySplitRel s else p ++ pySplitRel s

/-- Resolve parent-directory components the way the OS does on a symlink-free
tree: a `".."` component removes the component before it. -/
def resolveComps (p : List String) : List String :=
  p.foldl (fun acc c => if c = ".." then acc.dropLast else acc ++ [c]) []

/-- Python pathlib stem of a file name: drop the last dot-suffix, keeping the
whole name when there is no suffix or the name starts with the only dot. -/
def pyStem (name : String) : String :=
  let parts := splitChar '.' name
  if parts.length ≤ 1 then name
  else
    let pre := List.intercalate ['.'] parts.dropLast
    if pre.isEmpty then name else String.mk pre

/-- The final component of a path (Python `Path.name`). -/
def lastComponent (p : PyPath) : String := p.getLast? |>.getD ""

/-! ## Decimal formatting (Python `str.format` with format spec `04d`) -/

/-- Decimal digits of `n`, most significant first, accumulated onto `acc`.
The first argument is fuel so that the definition is structural. -/
def natToDecAux : Nat → Nat → List Char → List Char
  | 0, _, acc => acc
  | fuel + 1, n, acc =>
    if n = 0 then acc else natToDecAux fuel (n / 10) (Nat.digitChar (n % 10) :: acc)

/-- Decimal rendering of a natural number. -/
def natToDec (n : Nat) : String :=
  if n = 0 then "0" else String.mk (natToDecAux n n [])

/-- Left-pad with zeros up to width `w`. -/
def leftPad0 (w : Nat) (s : String) : String :=
  String.mk (List.replicate (w - s.length) '0') ++ s

/-- Python `f"\x7bn:04d\x7d"`: minimum width four, zero padded after the sign. -/
def pyFormat04 (n : Int) : String :=
  if n < 0 then "-" ++ leftPad0 3 (natToDec n.natAbs) else leftPad0 4 (natToDec n.toNat)

/-- The page image file name used by `write_image`. -/
def pageFileName (page_index : Int) : String := "page_" ++ pyFormat04 page_index ++ ".png"

/-- The batch identifier formatted by `create_batch`. -/
def batchIdOf (start_page_index end_page_index : Int) : String :=
  pyFormat04 start_page_index ++ "-" ++ pyFormat04 end_page_index

/-- Numeric value of an ASCII digit character. -/
def digitVal (c : Char) : Nat := c.toNat - 48

/-- Positional decimal value of a digit string. -/
def decVal : List Char → Nat
  | [] => 0
  | c :: cs => digitVal c * 10 ^ cs.length + decVal cs

/-- A character in the ASCII digit range. -/
def isDigitChar (c : Char) : Prop := 48 ≤ c.toNat ∧ c.toNat ≤ 57

instance (c : Char) : Decidable (isDigitChar c) :=
  inferInstanceAs (Decidable (48 ≤ c.toNat ∧ c.toNat ≤ 57))

/-- Strict lexicographic order on character lists by code point: the order in
which a directory listing sorts file names. -/
def lexLt : List Char → List Char → Bool
  | [], [] => false
  | [], _ :: _ => true
  | _ :: _, [] => false
  | c :: cs, d :: ds =>
    if c.toNat < d.toNat then true
    else if d.toNat < c.toNat then false
    else lexLt cs ds

/-! ## Errors (the Python exceptions raised by the gateway and its calls) -/

/-- Exceptions observable from the gateway. -/
inductive Err where
  | valueError (msg : String)
  | attributeError (msg : String)
  | fileExistsError (path : PyPath)
  | fileNotFoundError (path : PyPath)
  | isADirectoryError (path : PyPath)
  deriving DecidableEq, Repr

/-- Errors produced by the filesystem itself, as opposed to the gateway's own
precondition and validation checks. -/
def Err.isFilesystemError : Err → Bool
  | .fileExistsError _ => true
  | .fileNotFoundError _ => true
  | .isADirectoryError _ => true
  | _ => false

/-- Validation failures (Python `ValueError`). -/
def Err.isValueError : Err → Bool
  | .valueError _ => true
  | _ => false

/-! ## Filesystem model -/

/-- A snapshot of the filesystem: the directories and the files (with content)
that exist.  File contents are modeled as strings. -/
structure FS where
  dirs : List PyPath
  files : List (PyPath × String)
  deriving DecidableEq, Repr

def FS.dirExists (fs : FS) (p : PyPath) : Bool := fs.dirs.contains p

def FS.fileExists (fs : FS) (p : PyPath) : Bool := fs.files.any (fun q => q.1 = p)

/-- Python `Path.exists`: true for a directory or a file. -/
def FS.pathExists (fs : FS) (p : PyPath) : Bool := fs.dirExists p || fs.fileExists p

/-- Every nonempty initial segment of the path, the path itself included. -/
def ancestorDirs (p : PyPath) : List PyPath :=
  (List.range p.length).map (fun k => p.take (k + 1))

/-- Python `Path.mkdir(parents=..., exist_ok=...)`.  Fails with
`FileExistsError` when the target exists (unless `exist_ok` and it is a
directory) and with `FileNotFoundError` when `parents` is false and the parent
directory is missing.  The filesystem root always exists. -/
def FS.mkdir (fs : FS) (p : PyPath) (parents exist_ok : Bool) : Except Err FS :=
  if fs.dirExists p then
    if exist_ok then .ok fs else .error (.fileExistsError p)
  else if fs.fileExists p then .error (.fileExistsError p)
  else if !parents && p.dropLast ≠ [] && !fs.dirExists p.dropLast then
    .error (.fileNotFoundError p.dropLast)
  else
    .ok { fs with dirs := (if parents then ancestorDirs p else [p]) ++ fs.dirs }

/-- Python `Path.write_text` / `Path.write_bytes`: overwrite or create the
file; fail when the target is a directory or the parent directory is missing. -/
def FS.writeFile (fs : FS) (p : PyPath) (content : String) : Except Err FS :=
  if fs.dirExists p then .error (.isADirectoryError p)
  else if p.dropLast ≠ [] && !fs.dirExists p.dropLast then
    .error (.fileNotFoundError p.dropLast)
  else .ok { fs with files := (p, content) :: fs.files.filter (fun q => q.1 ≠ p) }

/-- `shutil.copy2`: read the source file and write its content to `dst`. -/
def FS.copy2 (fs : FS) (src dst : PyPath) : Except Err FS :=
  match fs.files.find? (fun q => q.1 = src) with
  | none => .error (.fileNotFoundError src)
  | some q => fs.writeFile dst q.2

/-! ## The gateway state -/

/-- The `RunStorage` instance fields.  `run_dir`, `pages_dir` and
`batches_dir` are `none` until `create_run_dir` assigns them. -/
structure RunStorage where
  base_dir : PyPath
  pdf_path : PyPath
  run_dir : Option PyPath
  pages_dir : Option PyPath
  batches_dir : Option PyPath
  deriving DecidableEq, Repr

/-- Message of the `AttributeError` raised before initialization. -/
def uninitMsg : String := "Run directory not initialized. Call create_run_dir() first."

/-- The error every write operation raises on an uninitialized gateway. -/
def uninitErr : Err := .attributeError uninitMsg

/-- `RunStorage.create_run_dir`, line by line.  `dir_name` stands for the
timestamp string `datetime.now().strftime("%d_%m_%Y-%H_%M_%S")`.  On error the
returned storage record is the one at the point of failure (Python leaves the
fields it has not yet assigned untouched). -/
def create_run_dir (st : RunStorage) (dir_name : String) (fs : FS) :
    Except Err PyPath × RunStorage × FS :=
  match fs.mkdir st.base_dir true true with
  | .error e => (.error e, st, fs)
  | .ok fs1 =>
    match fs1.mkdir (pyJoin st.base_dir dir_name) false false with
    | .error e => (.error e, st, fs1)
    | .ok fs2 =>
      match fs2.mkdir (pyJoin (pyJoin st.base_dir dir_name) "pages") false false with
      | .error e => (.error e, st, fs2)
      | .ok fs3 =>
        match fs3.mkdir (pyJoin (pyJoin st.base_dir dir_name) "batches") false false with
        | .error e => (.error e, st, fs3)
        | .ok fs4 =>
          match fs4.copy2 st.pdf_path
              (pyJoin (pyJoin st.base_dir dir_name)
                ("input(" ++ pyStem (lastComponent st.pdf_path) ++ ").pdf")) with
          | .error e => (.error e, st, fs4)
          | .ok fs5 =>
            (.ok (pyJoin st.base_dir dir_name),
             { st with
                run_dir := some (pyJoin st.base_dir dir_name)
                pages_dir := some (pyJoin (pyJoin st.base_dir dir_name) "pages")
                batches_dir := some (pyJoin (pyJoin st.base_dir dir_name) "batches") },
             fs5)

/-- `RunStorage.write_image`. -/
def write_image (st : RunStorage) (page_index : Int) (data : String) (fs : FS) :
    Except Err PyPath × FS :=
  match st.pages_dir with
  | none => (.error uninitErr, fs)
  | some pages_dir =>
    match fs.writeFile (pyJoin pages_dir (pageFileName page_index)) data with
    | .error e => (.error e, fs)
    | .ok fs1 => (.ok (pyJoin pages_dir (pageFileName page_index)), fs1)

/-- `RunStorage.create_batch`.  The range check precedes the initialization
check, which precedes the directory creation. -/
def create_batch (st : RunStorage) (start_page_index end_page_index : Int) (fs : FS) :
    Except Err String × FS :=
  if start_page_index > end_page_index then
    (.error (.valueError "start_page_index must be <= end_page_index"), fs)
  else
    match st.batches_dir with
    | none => (.error uninitErr, fs)
    | some batches_dir =>
      match fs.mkdir (pyJoin batches_dir (batchIdOf start_page_index end_page_index))
          true false with
      | .error e => (.error e, fs)
      | .ok fs1 => (.ok (batchIdOf start_page_index end_page_index), fs1)

/-- Characters admitted by `RunStorage._validate_batch_id`. -/
def allowedBatchChar (ch : Char) : Bool := ch.isDigit || ch = '-'

/-- `RunStorage._validate_batch_id`. -/
def validate_batch_id (batch_id : String) : Except Err Unit :=
  if batch_id.data.isEmpty || !batch_id.data.contains '-' then
    .error (.valueError "batch_id must contain at least one dash, e.g., 0000-0002")
  else if batch_id.data.any (fun ch => !allowedBatchChar ch) then
    .error (.valueError "batch_id may contain only digits and dashes")
  else .ok ()

/-- `RunStorage.write_prompt`: validation, then the initialization check, then
the batch-directory existence check, then the write. -/
def write_prompt (st : RunStorage) (batch_id : String) (content_md : String) (fs : FS) :
    Except Err PyPath × FS :=
  match validate_batch_id batch_id with
  | .error e => (.error e, fs)
  | .ok _ =>
    match st.batches_dir with
    | none => (.error uninitErr, fs)
    | some batches_dir =>
      if !fs.pathExists (pyJoin batches_dir batch_id) then
        (.error (.fileNotFoundError (pyJoin batches_dir batch_id)), fs)
      else
        match fs.writeFile (pyJoin (pyJoin batches_dir batch_id) "prompt.md") content_md with
        | .error e => (.error e, fs)
        | .ok fs1 => (.ok (pyJoin (pyJoin batches_dir batch_id) "prompt.md"), fs1)

/-- `RunStorage.write_response`.  `json.dumps` of the payload is abstracted as
the already-serialized string `response_serialized`; no claim concerns the
serialization itself. -/
def write_response (st : RunStorage) (batch_id : String) (response_serialized : String) (fs : FS) :
    Except Err PyPath × FS :=
  match validate_batch_id batch_id with
  | .error e => (.error e, fs)
  | .ok _ =>
    match st.batches_dir with
    | none => (.error uninitErr, fs)
    | some batches_dir =>
      if !fs.pathExists (pyJoin batches_dir batch_id) then
        (.error (.fileNotFoundError (pyJoin batches_dir batch_id)), fs)
      else
        match fs.writeFile (pyJoin (pyJoin batches_dir batch_id) "response.json")
            response_serialized with
        | .error e => (.error e, fs)
        | .ok fs1 => (.ok (pyJoin (pyJoin batches_dir batch_id) "response.json"), fs1)

/-- `RunStorage.write_final_excel`. -/
def write_final_excel (st : RunStorage) (data : String) (fs : FS) :
    Except Err PyPath × FS :=
  match st.run_dir with
  | none => (.error uninitErr, fs)
  | some run_dir =>
    match fs.writeFile (pyJoin run_dir "output.xlsx") data with
    | .error e => (.error e, fs)
    | .ok fs1 => (.ok (pyJoin run_dir "output.xlsx"), fs1)

deriving instance DecidableEq for Except

/-- Whether a gateway call raised a filesystem-level error. -/
def raisedFilesystemError {α : Type} : Except Err α → Bool
  | .error e => e.isFilesystemError
  | .ok _ => false

/-- Whether a gateway call raised a validation error (Python `ValueError`). -/
def raisedValueError {α : Type} : Except Err α → Bool
  | .error e => e.isValueError
  | .ok _ => false

/-! ## Concrete fixtures -/

/-- A gateway on which `create_run_dir` has never succeeded. -/
def stUninit : RunStorage :=
  { base_dir := ["tmp", "out"], pdf_path := ["tmp", "doc.pdf"],
    run_dir := none, pages_dir := none, batches_dir := none }

/-- A gateway after a successful `create_run_dir` into `tmp/out/r`. -/
def stInit : RunStorage :=
  { base_dir := ["tmp", "out"], pdf_path := ["tmp", "doc.pdf"],
    run_dir := some ["tmp", "out", "r"],
    pages_dir := some ["tmp", "out", "r", "pages"],
    batches_dir := some ["tmp", "out", "r", "batches"] }

/-- The empty filesystem. -/
def fsEmpty : FS := { dirs := [], files := [] }

/-- The filesystem matching `stInit`, with no batch created yet. -/
def fsInit : FS :=
  { dirs := [["tmp"], ["tmp", "out"], ["tmp", "out", "r"],
             ["tmp", "out", "r", "pages"], ["tmp", "out", "r", "batches"]],
    files := [(["tmp", "doc.pdf"], "PDFBYTES")] }

/-- A filesystem holding only the source document, before any run exists. -/
def fsBase : FS := { dirs := [["tmp"]], files := [(["tmp", "doc.pdf"], "PDFBYTES")] }

/-! ## Sanity checks on concrete inputs -/

example : pyFormat04 3 = "0003" := by decide
example : pyFormat04 (-2) = "-002" := by decide
example : pyFormat04 10000 = "10000" := by decide
example : batchIdOf 0 2 = "0000-0002" := by decide
example : validate_batch_id "0000-0002" = .ok () := by decide
example : (validate_batch_id "").isOk = false := by decide
example : (validate_batch_id "0000").isOk = false := by decide
example : (validate_batch_id "00a0-0002").isOk = false := by decide
example : pySplitRel "0000-0002" = ["0000-0002"] := by decide
example : pyJoin ["r", "batches"] "0000-0002" = ["r", "batches", "0000-0002"] := by decide
example : resolveComps ["r", "batches", ".."] = ["r"] := by decide
example : pyStem "doc.pdf" = "doc" := by decide

/-! ## Character-level path lemmas -/

theorem splitCharAux_no_sep (sep : Char) (cs acc : List Char) (h : sep ∉ cs) :
    splitCharAux sep cs acc = [acc.reverse ++ cs] := by
  induction cs generalizing acc with
  | nil => simp [splitCharAux]
  | cons c rest ih =>
    have hc : ¬(c = sep) := fun hh => h (hh ▸ List.mem_cons_self c rest)
    rw [splitCharAux, if_neg hc, ih _ (fun hr => h (List.mem_cons_of_mem _ hr))]
    simp

theorem pySplitRel_single (s : String) (hslash : '/' ∉ s.data)
    (hne : s.data ≠ []) (hdot : s.data ≠ ['.']) : pySplitRel s = [s] := by
  unfold pySplitRel splitChar
  rw [splitCharAux_no_sep _ _ _ hslash]
  simp only [List.reverse_nil, List.nil_append]
  rw [List.filter_cons, if_pos (decide_eq_true ⟨hne, hdot⟩), List.filter_nil]
  simp only [List.map_cons, List.map_nil]

theorem validate_batch_id_ok_of (bid : String) (h : validate_batch_id bid = .ok ()) :
    bid.data ≠ [] ∧ '-' ∈ bid.data ∧ ∀ c ∈ bid.data, allowedBatchChar c := by
  unfold validate_batch_id at h
  split at h
  · cases h
  · split at h
    · cases h
    · rename_i h1 h2
      refine ⟨?_, ?_, ?_⟩
      · intro hnil
        exact h1 (by simp [hnil])
      · by_contra hmem
        apply h1
        simp only [Bool.or_eq_true, Bool.not_eq_true']
        right
        simp [List.contains, List.elem_eq_mem, hmem]
      · intro c hc
        by_contra hbad
        apply h2
        simp only [List.any_eq_true]
        refine ⟨c, hc, ?_⟩
        simp only [Bool.not_eq_true']
        exact Bool.eq_false_iff.mpr hbad

theorem allowedBatchChar_ne_slash {c : Char} (h : allowedBatchChar c = true) : c ≠ '/' := by
  rintro rfl
  exact absurd h (by decide)

theorem allowedBatchChar_ne_dot {c : Char} (h : allowedBatchChar c = true) : c ≠ '.' := by
  rintro rfl
  exact absurd h (by decide)

theorem validated_batch_id_single_component (bid : String)
    (h : validate_batch_id bid = .ok ()) :
    pySplitRel bid = [bid] ∧ pyIsAbs bid = false ∧ bid ≠ ".." := by
  obtain ⟨hne, _, hall⟩ := validate_batch_id_ok_of bid h
  have hslash : '/' ∉ bid.data := fun hmem => allowedBatchChar_ne_slash (hall _ hmem) rfl
  have hdot : ∀ c ∈ bid.data, c ≠ '.' := fun c hc => allowedBatchChar_ne_dot (hall c hc)
  refine ⟨pySplitRel_single bid hslash hne ?_, ?_, ?_⟩
  · intro hd
    exact hdot '.' (hd ▸ List.mem_cons_self _ _) rfl
  · unfold pyIsAbs
    cases hd : bid.data with
    | nil => simp
    | cons c rest =>
      have : c ≠ '/' := allowedBatchChar_ne_slash (hall c (hd ▸ List.mem_cons_self _ _))
      simp [this]
  · intro hd
    have : '.' ∈ bid.data := by rw [hd]; decide
    exact hdot '.' this rfl

theorem resolveComps_append (p : List String) (c : String) (h : c ≠ "..") :
    resolveComps (p ++ [c]) = resolveComps p ++ [c] := by
  unfold resolveComps
  rw [List.foldl_append]
  simp [h]

/-! ## Claim C1 -/

/-- Claim C1: every batch identifier accepted by the safety check, joined to
the batches directory (a child of the run directory), yields a path that is
exactly one new component below the batches directory; after resolving any
parent-directory components, the resolved run directory is still a proper
ancestor.  No accepted identifier can escape the run directory. -/
theorem c1_validated_batch_id_stays_inside_run_dir (bid : String) (run_dir : PyPath)
    (h : validate_batch_id bid = .ok ()) :
    pyJoin (run_dir ++ ["batches"]) bid = run_dir ++ ["batches", bid] ∧
    resolveComps (pyJoin (run_dir ++ ["batches"]) bid) =
      resolveComps run_dir ++ ["batches", bid] := by
  obtain ⟨hsplit, habs, hdd⟩ := validated_batch_id_single_component bid h
  have hjoin : pyJoin (run_dir ++ ["batches"]) bid = run_dir ++ ["batches", bid] := by
    unfold pyJoin
    rw [habs]
    simp [hsplit]
  refine ⟨hjoin, ?_⟩
  rw [hjoin]
  have : run_dir ++ ["batches", bid] = (run_dir ++ ["batches"]) ++ [bid] := by simp
  rw [this, resolveComps_append _ _ hdd, resolveComps_append _ _ (by decide)]
  simp

/-- Witness for C1 at the concrete identifier 0000-0002. -/
theorem c1_witness :
    pyJoin (["tmp", "run", "batches"]) "0000-0002" = ["tmp", "run", "batches", "0000-0002"] ∧
    resolveComps (pyJoin (["tmp", "run", "batches"]) "0000-0002") =
      resolveComps ["tmp", "run"] ++ ["batches", "0000-0002"] :=
  c1_validated_batch_id_stays_inside_run_dir "0000-0002" ["tmp", "run"] (by decide)

/-! ## Further helper lemmas -/

theorem validate_batch_id_cases (bid : String) :
    validate_batch_id bid = .ok () ∨ ∃ m, validate_batch_id bid = .error (.valueError m) := by
  unfold validate_batch_id
  split
  · exact .inr ⟨_, rfl⟩
  · split
    · exact .inr ⟨_, rfl⟩
    · exact .inl rfl

theorem validate_batch_id_ok_intro (bid : String) (h1 : bid.data ≠ []) (h2 : '-' ∈ bid.data)
    (h3 : ∀ c ∈ bid.data, allowedBatchChar c) : validate_batch_id bid = .ok () := by
  have hA : ¬((bid.data.isEmpty || !bid.data.contains '-') = true) := by
    simp [List.isEmpty_iff, h1, List.contains, List.elem_eq_mem, h2]
  have hB : ¬((bid.data.any fun ch => !allowedBatchChar ch) = true) := by
    simp only [List.any_eq_true, not_exists, not_and]
    intro c hc
    simp [h3 c hc]
  unfold validate_batch_id
  rw [if_neg hA, if_neg hB]

theorem data_mk (l : List Char) : (String.mk l).data = l := rfl

theorem digitChar_allowed (d : Nat) (h : d < 10) : allowedBatchChar (Nat.digitChar d) = true := by
  interval_cases d <;> decide

theorem natToDecAux_chars (fuel : Nat) : ∀ (n : Nat) (acc : List Char),
    (∀ c ∈ acc, allowedBatchChar c) → ∀ c ∈ natToDecAux fuel n acc, allowedBatchChar c := by
  induction fuel with
  | zero => intro n acc hacc c hc; exact hacc c hc
  | succ fuel ih =>
    intro n acc hacc c hc
    rw [natToDecAux] at hc
    by_cases hn : n = 0
    · rw [if_pos hn] at hc
      exact hacc c hc
    · rw [if_neg hn] at hc
      refine ih (n / 10) _ ?_ c hc
      intro d hd
      rcases List.mem_cons.mp hd with hd | hd
      · exact hd ▸ digitChar_allowed (n % 10) (Nat.mod_lt _ (by omega))
      · exact hacc d hd

theorem natToDec_chars (n : Nat) : ∀ c ∈ (natToDec n).data, allowedBatchChar c := by
  unfold natToDec
  by_cases hn : n = 0
  · rw [if_pos hn]
    decide
  · rw [if_neg hn]
    intro c hc
    exact natToDecAux_chars n n [] (by simp) c hc

theorem leftPad0_chars (w : Nat) (s : String) (hs : ∀ c ∈ s.data, allowedBatchChar c) :
    ∀ c ∈ (leftPad0 w s).data, allowedBatchChar c := by
  unfold leftPad0
  intro c hc
  rw [String.data_append, data_mk] at hc
  rcases List.mem_append.mp hc with h | h
  · have : c = '0' := List.eq_of_mem_replicate h
    subst this
    decide
  · exact hs c h

theorem pyFormat04_chars (n : Int) : ∀ c ∈ (pyFormat04 n).data, allowedBatchChar c := by
  unfold pyFormat04
  by_cases hn : n < 0
  · rw [if_pos hn]
    intro c hc
    rw [String.data_append] at hc
    rcases List.mem_append.mp hc with h | h
    · have : c = '-' := by simpa using h
      subst this
      decide
    · exact leftPad0_chars 3 _ (natToDec_chars _) c h
  · rw [if_neg hn]
    exact leftPad0_chars 4 _ (natToDec_chars _)

theorem batchIdOf_validates (s e : Int) : validate_batch_id (batchIdOf s e) = .ok () := by
  have hall : ∀ c ∈ (batchIdOf s e).data, allowedBatchChar c := by
    unfold batchIdOf
    intro c hc
    simp only [String.data_append] at hc
    rcases List.mem_append.mp hc with h | h
    · rcases List.mem_append.mp h with h | h
      · exact pyFormat04_chars _ c h
      · have : c = '-' := by simpa using h
        subst this
        decide
    · exact pyFormat04_chars _ c h
  have hdash : '-' ∈ (batchIdOf s e).data := by
    unfold batchIdOf
    simp only [String.data_append]
    exact List.mem_append.mpr (.inl (List.mem_append.mpr (.inr (by decide))))
  have hne : (batchIdOf s e).data ≠ [] := by
    intro hnil
    rw [hnil] at hdash
    cases hdash
  exact validate_batch_id_ok_intro _ hne hdash hall

theorem mem_ancestorDirs_self (p : PyPath) (h : p ≠ []) : p ∈ ancestorDirs p := by
  unfold ancestorDirs
  have hl : 0 < p.length := List.length_pos.mpr h
  refine List.mem_map.mpr ⟨p.length - 1, List.mem_range.mpr (by omega), ?_⟩
  rw [Nat.sub_add_cancel hl, List.take_length]

theorem writeFile_error_not_valueError (fs : FS) (p : PyPath) (c : String) :
    ∀ e, FS.writeFile fs p c = .error e → e.isValueError = false := by
  unfold FS.writeFile
  intro e
  split
  · intro h
    cases h
    rfl
  · split
    · intro h
      cases h
      rfl
    · intro h
      cases h

/-! ## Claim C7 -/

/-- Claim C7: a batch id that is empty, contains no dash, or contains any
character outside digits and dash makes `write_prompt` and `write_response`
fail with a validation error, leaving the filesystem untouched. -/
theorem c7_invalid_batch_id_rejected_before_fs (st : RunStorage) (bid content : String)
    (fs : FS)
    (h : bid.data = [] ∨ '-' ∉ bid.data ∨ ∃ c ∈ bid.data, ¬ allowedBatchChar c) :
    (∃ m, (write_prompt st bid content fs).1 = .error (.valueError m)) ∧
    (write_prompt st bid content fs).2 = fs ∧
    (∃ m, (write_response st bid content fs).1 = .error (.valueError m)) ∧
    (write_response st bid content fs).2 = fs := by
  have hv : ∃ m, validate_batch_id bid = .error (.valueError m) := by
    rcases validate_batch_id_cases bid with hok | he
    · obtain ⟨h1, h2, h3⟩ := validate_batch_id_ok_of bid hok
      rcases h with h | h | ⟨c, hc, hbad⟩
      · exact absurd h h1
      · exact absurd h2 h
      · exact absurd (h3 c hc) hbad
    · exact he
  obtain ⟨m, hm⟩ := hv
  unfold write_prompt write_response
  rw [hm]
  exact ⟨⟨m, rfl⟩, rfl, ⟨m, rfl⟩, rfl⟩

/-- Witness for C7 at the concrete invalid identifier abc. -/
theorem c7_witness :
    (∃ m, (write_prompt stInit "abc" "p" fsInit).1 = .error (.valueError m)) ∧
    (write_prompt stInit "abc" "p" fsInit).2 = fsInit ∧
    (∃ m, (write_response stInit "abc" "p" fsInit).1 = .error (.valueError m)) ∧
    (write_response stInit "abc" "p" fsInit).2 = fsInit :=
  c7_invalid_batch_id_rejected_before_fs stInit "abc" "p" fsInit
    (by right; right; exact ⟨'a', by decide, by decide⟩)

/-! ## Claim C9 -/

/-- Claim C9: on an initialized gateway, a batch id that passes the safety
check but whose directory was never created makes `write_prompt` and
`write_response` fail with the batch-not-found error, writing no file. -/
theorem c9_missing_batch_dir_reported (st : RunStorage) (bd : PyPath) (bid content : String)
    (fs : FS)
    (hinit : st.batches_dir = some bd)
    (hok : validate_batch_id bid = .ok ())
    (hmiss : fs.pathExists (pyJoin bd bid) = false) :
    (write_prompt st bid content fs).1 = .error (.fileNotFoundError (pyJoin bd bid)) ∧
    (write_prompt st bid content fs).2 = fs ∧
    (write_response st bid content fs).1 = .error (.fileNotFoundError (pyJoin bd bid)) ∧
    (write_response st bid content fs).2 = fs := by
  unfold write_prompt write_response
  rw [hok, hinit]
  simp [hmiss]

/-- Witness for C9: a never-created but well-formed batch id on the concrete
initialized gateway. -/
theorem c9_witness :
    (write_prompt stInit "0000-0002" "p" fsInit).1 =
      .error (.fileNotFoundError (pyJoin ["tmp", "out", "r", "batches"] "0000-0002")) ∧
    (write_prompt stInit "0000-0002" "p" fsInit).2 = fsInit ∧
    (write_response stInit "0000-0002" "p" fsInit).1 =
      .error (.fileNotFoundError (pyJoin ["tmp", "out", "r", "batches"] "0000-0002")) ∧
    (write_response stInit "0000-0002" "p" fsInit).2 = fsInit :=
  c9_missing_batch_dir_reported stInit ["tmp", "out", "r", "batches"] "0000-0002" "p" fsInit
    (by decide) (by decide) (by decide)

/-! ## Claim C2 -/

/-- Counterexample to claim C2 as stated: on a gateway never initialized,
`create_batch` called with start greater than end fails with the range
validation error, not with the uninitialized-state error. -/
theorem c2_counterexample :
    (create_batch stUninit 5 3 fsEmpty).1 =
      .error (.valueError "start_page_index must be <= end_page_index") ∧
    (create_batch stUninit 5 3 fsEmpty).1 ≠ .error uninitErr := by
  constructor
  · decide
  · decide

/-- Claim C2 (amended): every write operation called on an uninitialized
gateway fails before touching the filesystem and never with a filesystem
error; it fails with the uninitialized-state error whenever its arguments
pass the operation's own argument validation, which precedes the
initialization check in `create_batch`, `write_prompt` and `write_response`. -/
theorem c2_uninitialized_write_fails (st : RunStorage) (fs : FS)
    (h : st.run_dir = none ∧ st.pages_dir = none ∧ st.batches_dir = none) :
    (∀ i d, write_image st i d fs = (.error uninitErr, fs)) ∧
    (∀ d, write_final_excel st d fs = (.error uninitErr, fs)) ∧
    (∀ s e, s ≤ e → create_batch st s e fs = (.error uninitErr, fs)) ∧
    (∀ s e, (create_batch st s e fs).2 = fs ∧
      raisedFilesystemError (create_batch st s e fs).1 = false) ∧
    (∀ bid c, validate_batch_id bid = .ok () →
      write_prompt st bid c fs = (.error uninitErr, fs)) ∧
    (∀ bid c, (write_prompt st bid c fs).2 = fs ∧
      raisedFilesystemError (write_prompt st bid c fs).1 = false) ∧
    (∀ bid c, validate_batch_id bid = .ok () →
      write_response st bid c fs = (.error uninitErr, fs)) ∧
    (∀ bid c, (write_response st bid c fs).2 = fs ∧
      raisedFilesystemError (write_response st bid c fs).1 = false) := by
  obtain ⟨h1, h2, h3⟩ := h
  refine ⟨?_, ?_, ?_, ?_, ?_, ?_, ?_, ?_⟩
  · intro i d
    unfold write_image
    rw [h2]
  · intro d
    unfold write_final_excel
    rw [h1]
  · intro s e hse
    unfold create_batch
    rw [if_neg (by omega), h3]
  · intro s e
    unfold create_batch
    by_cases hse : s > e
    · rw [if_pos hse]
      exact ⟨rfl, rfl⟩
    · rw [if_neg hse, h3]
      exact ⟨rfl, rfl⟩
  · intro bid c hok
    unfold write_prompt
    rw [hok, h3]
  · intro bid c
    unfold write_prompt
    rcases validate_batch_id_cases bid with hok | ⟨m, hm⟩
    · rw [hok, h3]
      exact ⟨rfl, rfl⟩
    · rw [hm]
      exact ⟨rfl, rfl⟩
  · intro bid c hok
    unfold write_response
    rw [hok, h3]
  · intro bid c
    unfold write_response
    rcases validate_batch_id_cases bid with hok | ⟨m, hm⟩
    · rw [hok, h3]
      exact ⟨rfl, rfl⟩
    · rw [hm]
      exact ⟨rfl, rfl⟩

/-- Witness for the amended C2 on the concrete uninitialized gateway. -/
theorem c2_witness :
    write_image stUninit 0 "d" fsEmpty = (.error uninitErr, fsEmpty) ∧
    write_final_excel stUninit "d" fsEmpty = (.error uninitErr, fsEmpty) ∧
    create_batch stUninit 0 2 fsEmpty = (.error uninitErr, fsEmpty) ∧
    write_prompt stUninit "0000-0002" "p" fsEmpty = (.error uninitErr, fsEmpty) ∧
    write_response stUninit "0000-0002" "p" fsEmpty = (.error uninitErr, fsEmpty) :=
  ⟨(c2_uninitialized_write_fails stUninit fsEmpty (by decide)).1 0 "d",
   (c2_uninitialized_write_fails stUninit fsEmpty (by decide)).2.1 "d",
   (c2_uninitialized_write_fails stUninit fsEmpty (by decide)).2.2.1 0 2 (by decide),
   (c2_uninitialized_write_fails stUninit fsEmpty (by decide)).2.2.2.2.1 "0000-0002" "p"
     (by decide),
   (c2_uninitialized_write_fails stUninit fsEmpty (by decide)).2.2.2.2.2.2.1 "0000-0002" "p"
     (by decide)⟩

/-! ## Claim C5 -/

/-- Counterexample to claim C5 as stated: `write_image` performs no
page-index validation; index -1 on an initialized gateway succeeds and writes
a file named page_-001.png instead of raising a validation error. -/
theorem c5_counterexample :
    (write_image stInit (-1) "bytes" fsInit).1 =
      .ok ["tmp", "out", "r", "pages", "page_-001.png"] := by
  decide

/-- Claim C5 (amended): an invalid batch-identifier shape and a malformed
batch range (start greater than end) are surfaced as validation errors before
any filesystem mutation; `write_image`, however, performs no page-index
validation and never raises a validation error for any index. -/
theorem c5_validation_before_mutation (st : RunStorage) (fs : FS) :
    (∀ s e, s > e →
      create_batch st s e fs =
        (.error (.valueError "start_page_index must be <= end_page_index"), fs)) ∧
    (∀ bid c m, validate_batch_id bid = .error (.valueError m) →
      write_prompt st bid c fs = (.error (.valueError m), fs) ∧
      write_response st bid c fs = (.error (.valueError m), fs)) ∧
    (∀ i d, raisedValueError (write_image st i d fs).1 = false) := by
  refine ⟨?_, ?_, ?_⟩
  · intro s e hse
    unfold create_batch
    rw [if_pos hse]
  · intro bid c m hm
    constructor
    · unfold write_prompt
      rw [hm]
    · unfold write_response
      rw [hm]
  · intro i d
    unfold write_image
    cases hp : st.pages_dir with
    | none => rfl
    | some pd =>
      simp only
      cases hw : fs.writeFile (pyJoin pd (pageFileName i)) d with
      | error e =>
        simp only [raisedValueError]
        exact writeFile_error_not_valueError fs _ d e hw
      | ok fs1 => rfl

/-- Witness for the amended C5 at concrete inputs. -/
theorem c5_witness :
    create_batch stInit 5 3 fsInit =
      (.error (.valueError "start_page_index must be <= end_page_index"), fsInit) ∧
    raisedValueError (write_image stInit (-1) "d" fsInit).1 = false :=
  ⟨(c5_validation_before_mutation stInit fsInit).1 5 3 (by decide),
   (c5_validation_before_mutation stInit fsInit).2.2 (-1) "d"⟩

/-! ## Batch-creation lemmas -/

theorem dirExists_iff (fs : FS) (p : PyPath) : fs.dirExists p = true ↔ p ∈ fs.dirs := by
  unfold FS.dirExists
  simp [List.contains, List.elem_eq_mem]

theorem pyJoin_batchIdOf (bd : PyPath) (s e : Int) :
    pyJoin bd (batchIdOf s e) = bd ++ [batchIdOf s e] := by
  obtain ⟨hsplit, habs, _⟩ := validated_batch_id_single_component _ (batchIdOf_validates s e)
  unfold pyJoin
  simp [habs, hsplit]

theorem mkdir_fresh_ok (fs : FS) (p : PyPath) (h : fs.pathExists p = false) :
    fs.mkdir p true false = .ok { fs with dirs := ancestorDirs p ++ fs.dirs } := by
  unfold FS.pathExists at h
  rw [Bool.or_eq_false_iff] at h
  unfold FS.mkdir
  rw [if_neg (by simp [h.1]), if_neg (by simp [h.2]), if_neg (by simp)]
  rfl

theorem mkdir_existing_dir_error (fs : FS) (p : PyPath) (parents : Bool)
    (h : fs.dirExists p = true) : fs.mkdir p parents false = .error (.fileExistsError p) := by
  unfold FS.mkdir
  rw [if_pos h]
  rfl

theorem mkdir_ok_dirExists (fs fs1 : FS) (p : PyPath) (hp : p ≠ [])
    (h : fs.mkdir p true false = .ok fs1) : fs1.dirExists p = true := by
  unfold FS.mkdir at h
  split at h
  · simp at h
  · split at h
    · cases h
    · split at h
      · cases h
      · cases h
        rw [dirExists_iff]
        simp only [List.mem_append]
        exact .inl (by simpa using mem_ancestorDirs_self p hp)

theorem create_batch_fresh (st : RunStorage) (bd : PyPath) (s e : Int) (fs : FS)
    (hinit : st.batches_dir = some bd) (hle : s ≤ e)
    (hfresh : fs.pathExists (bd ++ [batchIdOf s e]) = false) :
    create_batch st s e fs =
      (.ok (batchIdOf s e),
       { fs with dirs := ancestorDirs (bd ++ [batchIdOf s e]) ++ fs.dirs }) := by
  unfold create_batch
  rw [if_neg (by omega), hinit]
  simp only [pyJoin_batchIdOf, mkdir_fresh_ok fs _ hfresh]

/-! ## Claim C8 -/

/-- Claim C8: once `create_batch` has succeeded for a pair of indices, a
second call with the same pair fails with the directory-exists error and
leaves the filesystem unchanged. -/
theorem create_batch_ok_inv (st : RunStorage) (s e : Int) (fs fs1 : FS) (bid : String)
    (h : create_batch st s e fs = (.ok bid, fs1)) :
    ¬ s > e ∧ ∃ bd, st.batches_dir = some bd ∧ bid = batchIdOf s e ∧
      fs.mkdir (pyJoin bd (batchIdOf s e)) true false = .ok fs1 := by
  unfold create_batch at h
  split at h
  · simp at h
  · rename_i hse
    split at h
    · simp at h
    · rename_i bd hbd
      have h2 : (match fs.mkdir (pyJoin bd (batchIdOf s e)) true false with
          | Except.error err => ((Except.error err : Except Err String), fs)
          | Except.ok fsx => (Except.ok (batchIdOf s e), fsx)) = (Except.ok bid, fs1) := h
      split at h2
      · simp at h2
      · rename_i fs2 hmk
        simp only [Prod.mk.injEq, Except.ok.injEq] at h2
        refine ⟨hse, bd, hbd, h2.1.symm, ?_⟩
        rw [← h2.2]
        exact hmk

theorem c8_duplicate_batch_rejected (st : RunStorage) (s e : Int) (fs fs1 : FS) (bid : String)
    (h : create_batch st s e fs = (.ok bid, fs1)) :
    (∃ p, (create_batch st s e fs1).1 = .error (.fileExistsError p)) ∧
    (create_batch st s e fs1).2 = fs1 := by
  obtain ⟨hse, bd, hbd, _, hmk⟩ := create_batch_ok_inv st s e fs fs1 bid h
  have hne : pyJoin bd (batchIdOf s e) ≠ [] := by
    rw [pyJoin_batchIdOf]
    simp
  have hex : fs1.dirExists (pyJoin bd (batchIdOf s e)) = true :=
    mkdir_ok_dirExists fs fs1 _ hne hmk
  unfold create_batch
  rw [if_neg hse, hbd]
  simp only [mkdir_existing_dir_error fs1 _ true hex]
  exact ⟨⟨_, rfl⟩, trivial⟩

/-- Witness for C8: the concrete batch 0000-0002 created once then again. -/
theorem c8_witness :
    (∃ p, (create_batch stInit 0 2 (create_batch stInit 0 2 fsInit).2).1 =
      .error (.fileExistsError p)) ∧
    (create_batch stInit 0 2 (create_batch stInit 0 2 fsInit).2).2 =
      (create_batch stInit 0 2 fsInit).2 :=
  c8_duplicate_batch_rejected stInit 0 2 fsInit (create_batch stInit 0 2 fsInit).2
    "0000-0002" (by decide)

/-! ## Claim C4 -/

/-- Claim C4: for start ≤ end on an initialized gateway whose batches
directory does not yet hold the target, `create_batch` returns exactly the
zero-padded identifier `batchIdOf start end` and afterwards a directory of
that exact name exists under the batches directory. -/
theorem c4_create_batch_padded_id_and_dir (st : RunStorage) (bd : PyPath) (s e : Int)
    (fs : FS)
    (hinit : st.batches_dir = some bd)
    (hle : s ≤ e)
    (hfresh : fs.pathExists (bd ++ [batchIdOf s e]) = false) :
    (create_batch st s e fs).1 = .ok (batchIdOf s e) ∧
    (create_batch st s e fs).2.dirExists (bd ++ [batchIdOf s e]) = true := by
  rw [create_batch_fresh st bd s e fs hinit hle hfresh]
  refine ⟨rfl, ?_⟩
  rw [dirExists_iff]
  simp only [List.mem_append]
  exact .inl (mem_ancestorDirs_self _ (by simp))

/-- Witness for C4 at the concrete range zero to two. -/
theorem c4_witness :
    (create_batch stInit 0 2 fsInit).1 = .ok (batchIdOf 0 2) ∧
    (create_batch stInit 0 2 fsInit).2.dirExists
      (["tmp", "out", "r", "batches"] ++ [batchIdOf 0 2]) = true :=
  c4_create_batch_padded_id_and_dir stInit ["tmp", "out", "r", "batches"] 0 2 fsInit
    (by decide) (by decide) (by decide)

theorem write_prompt_valid_id_no_valueError (st : RunStorage) (bid content : String)
    (fs : FS) (hok : validate_batch_id bid = .ok ()) :
    raisedValueError (write_prompt st bid content fs).1 = false := by
  unfold write_prompt
  rw [hok]
  cases hbd : st.batches_dir with
  | none => rfl
  | some bd =>
    simp only
    by_cases hex : fs.pathExists (pyJoin bd bid) = true
    · rw [if_neg (by simp [hex])]
      cases hw : fs.writeFile (pyJoin (pyJoin bd bid) "prompt.md") content with
      | error err =>
        simp only [hw, raisedValueError]
        exact writeFile_error_not_valueError fs _ content err hw
      | ok fs1 => simp [hw, raisedValueError]
    · rw [if_pos (by simp [Bool.not_eq_true] at hex ⊢; exact hex)]
      rfl

theorem write_response_valid_id_no_valueError (st : RunStorage) (bid content : String)
    (fs : FS) (hok : validate_batch_id bid = .ok ()) :
    raisedValueError (write_response st bid content fs).1 = false := by
  unfold write_response
  rw [hok]
  cases hbd : st.batches_dir with
  | none => rfl
  | some bd =>
    simp only
    by_cases hex : fs.pathExists (pyJoin bd bid) = true
    · rw [if_neg (by simp [hex])]
      cases hw : fs.writeFile (pyJoin (pyJoin bd bid) "response.json") content with
      | error err =>
        simp only [hw, raisedValueError]
        exact writeFile_error_not_valueError fs _ content err hw
      | ok fs1 => simp [hw, raisedValueError]
    · rw [if_pos (by simp [Bool.not_eq_true] at hex ⊢; exact hex)]
      rfl

/-! ## Claim C10 -/

/-- Claim C10: `create_batch` performs no non-negativity check.  For negative
start ≤ end on an initialized gateway with a fresh target it succeeds and
returns the identifier built from the signed zero-padded numbers; concretely
the pair (-2, -1) yields "-002--001"; and every identifier `create_batch`
formats passes the batch-identifier safety check, so `write_prompt` and
`write_response` accept it. -/
theorem c10_negative_indices_accepted (st : RunStorage) (bd : PyPath) (s e : Int) (fs : FS)
    (hs : s < 0) (he : e < 0) (hle : s ≤ e)
    (hinit : st.batches_dir = some bd)
    (hfresh : fs.pathExists (bd ++ [batchIdOf s e]) = false) :
    (create_batch st s e fs).1 = .ok (batchIdOf s e) ∧
    batchIdOf (-2) (-1) = "-002--001" ∧
    validate_batch_id (batchIdOf s e) = .ok () ∧
    (∀ content fs2,
      raisedValueError (write_prompt st (batchIdOf s e) content fs2).1 = false) ∧
    (∀ content fs2,
      raisedValueError (write_response st (batchIdOf s e) content fs2).1 = false) := by
  rw [create_batch_fresh st bd s e fs hinit hle hfresh]
  refine ⟨rfl, by decide, batchIdOf_validates s e, ?_, ?_⟩
  · intro content fs2
    exact write_prompt_valid_id_no_valueError st _ content fs2 (batchIdOf_validates s e)
  · intro content fs2
    exact write_response_valid_id_no_valueError st _ content fs2 (batchIdOf_validates s e)

/-- Witness for C10 at the concrete negative range. -/
theorem c10_witness :
    (create_batch stInit (-2) (-1) fsInit).1 = .ok (batchIdOf (-2) (-1)) ∧
    batchIdOf (-2) (-1) = "-002--001" ∧
    validate_batch_id (batchIdOf (-2) (-1)) = .ok () ∧
    (∀ content fs2,
      raisedValueError (write_prompt stInit (batchIdOf (-2) (-1)) content fs2).1 = false) ∧
    (∀ content fs2,
      raisedValueError (write_response stInit (batchIdOf (-2) (-1)) content fs2).1 = false) :=
  c10_negative_indices_accepted stInit ["tmp", "out", "r", "batches"] (-2) (-1) fsInit
    (by decide) (by decide) (by decide) (by decide) (by decide)

/-! ## Claim C3 -/

theorem create_run_dir_cases (st : RunStorage) (dn : String) (fs : FS) :
    ((create_run_dir st dn fs).2.1 = st ∧ ∃ e, (create_run_dir st dn fs).1 = .error e) ∨
    ((create_run_dir st dn fs).1 = .ok (pyJoin st.base_dir dn) ∧
     (create_run_dir st dn fs).2.1 =
       { st with
          run_dir := some (pyJoin st.base_dir dn)
          pages_dir := some (pyJoin (pyJoin st.base_dir dn) "pages")
          batches_dir := some (pyJoin (pyJoin st.base_dir dn) "batches") }) := by
  unfold create_run_dir
  split
  · exact .inl ⟨rfl, _, rfl⟩
  · split
    · exact .inl ⟨rfl, _, rfl⟩
    · split
      · exact .inl ⟨rfl, _, rfl⟩
      · split
        · exact .inl ⟨rfl, _, rfl⟩
        · split
          · exact .inl ⟨rfl, _, rfl⟩
          · exact .inr ⟨rfl, rfl⟩

/-- Claim C3: `create_run_dir` assigns `run_dir`, `pages_dir` and
`batches_dir` only after every directory creation and the document copy have
succeeded: on any error the storage record is exactly the one passed in (an
uninitialized gateway stays uninitialized), and on success all three fields
are set at once. -/
theorem c3_run_dir_fields_all_or_nothing (st : RunStorage) (dn : String) (fs : FS) :
    (∀ err, (create_run_dir st dn fs).1 = .error err → (create_run_dir st dn fs).2.1 = st) ∧
    (∀ p, (create_run_dir st dn fs).1 = .ok p →
      (create_run_dir st dn fs).2.1.run_dir = some p ∧
      (create_run_dir st dn fs).2.1.pages_dir = some (pyJoin p "pages") ∧
      (create_run_dir st dn fs).2.1.batches_dir = some (pyJoin p "batches")) := by
  rcases create_run_dir_cases st dn fs with ⟨hst, e, he⟩ | ⟨hok, hst⟩
  · refine ⟨fun _ _ => hst, fun p hp => ?_⟩
    rw [he] at hp
    cases hp
  · refine ⟨fun err herr => ?_, fun p hp => ?_⟩
    · rw [hok] at herr
      cases herr
    · rw [hok] at hp
      cases hp
      rw [hst]
      exact ⟨rfl, rfl, rfl⟩

/-- Witness for C3: a failing initialization (missing source document) leaves
the record untouched; a successful one sets all three fields. -/
theorem c3_witness :
    ((create_run_dir stUninit "r" fsEmpty).2.1 = stUninit ∧
     (create_run_dir stUninit "r" fsBase).2.1.run_dir = some ["tmp", "out", "r"] ∧
     (create_run_dir stUninit "r" fsBase).2.1.pages_dir =
       some (pyJoin ["tmp", "out", "r"] "pages") ∧
     (create_run_dir stUninit "r" fsBase).2.1.batches_dir =
       some (pyJoin ["tmp", "out", "r"] "batches")) :=
  ⟨(c3_run_dir_fields_all_or_nothing stUninit "r" fsEmpty).1
     (.fileNotFoundError ["tmp", "doc.pdf"]) (by decide),
   (c3_run_dir_fields_all_or_nothing stUninit "r" fsBase).2 ["tmp", "out", "r"] (by decide)⟩

/-! ## Decimal-value and lexicographic lemmas -/

theorem digitVal_digitChar (d : Nat) (h : d < 10) : digitVal (Nat.digitChar d) = d := by
  interval_cases d <;> decide

theorem isDigitChar_digitChar (d : Nat) (h : d < 10) : isDigitChar (Nat.digitChar d) := by
  interval_cases d <;> exact (by decide)

theorem decVal_natToDecAux : ∀ (fuel n : Nat) (acc : List Char), n ≤ fuel →
    decVal (natToDecAux fuel n acc) = n * 10 ^ acc.length + decVal acc
  | 0, n, acc, hle => by
    have hn : n = 0 := Nat.le_zero.mp hle
    simp [natToDecAux, hn]
  | fuel + 1, n, acc, hle => by
    rw [natToDecAux]
    by_cases hn : n = 0
    · rw [if_pos hn, hn]
      simp
    · rw [if_neg hn]
      have hrec : n / 10 ≤ fuel := by
        have : n / 10 < n := Nat.div_lt_self (Nat.pos_of_ne_zero hn) (by norm_num)
        omega
      rw [decVal_natToDecAux fuel (n / 10) _ hrec]
      simp only [decVal, List.length_cons, pow_succ]
      rw [digitVal_digitChar (n % 10) (Nat.mod_lt n (by norm_num))]
      conv_rhs => rw [← Nat.div_add_mod n 10]
      ring

theorem decVal_natToDec (n : Nat) : decVal (natToDec n).data = n := by
  unfold natToDec
  by_cases hn : n = 0
  · rw [if_pos hn, hn]
    decide
  · rw [if_neg hn, data_mk, decVal_natToDecAux n n [] (le_refl n)]
    simp [decVal]

theorem natToDecAux_isDigitChar : ∀ (fuel n : Nat) (acc : List Char),
    (∀ c ∈ acc, isDigitChar c) → ∀ c ∈ natToDecAux fuel n acc, isDigitChar c
  | 0, _, _, hacc => hacc
  | fuel + 1, n, acc, hacc => by
    rw [natToDecAux]
    by_cases hn : n = 0
    · rw [if_pos hn]
      exact hacc
    · rw [if_neg hn]
      refine natToDecAux_isDigitChar fuel (n / 10) _ ?_
      intro d hd
      rcases List.mem_cons.mp hd with hd | hd
      · exact hd ▸ isDigitChar_digitChar (n % 10) (Nat.mod_lt n (by norm_num))
      · exact hacc d hd

theorem natToDec_isDigitChar (n : Nat) : ∀ c ∈ (natToDec n).data, isDigitChar c := by
  unfold natToDec
  by_cases hn : n = 0
  · rw [if_pos hn]
    intro c hc
    have : c = '0' := by simpa using hc
    subst this
    decide
  · rw [if_neg hn, data_mk]
    exact natToDecAux_isDigitChar n n [] (by simp)

theorem natToDecAux_length : ∀ (fuel n : Nat) (acc : List Char) (k : Nat), n ≤ fuel →
    n < 10 ^ k → (natToDecAux fuel n acc).length ≤ k + acc.length
  | 0, _, acc, k, _, _ => by
    rw [natToDecAux]
    omega
  | fuel + 1, n, acc, k, hle, hlt => by
    rw [natToDecAux]
    by_cases hn : n = 0
    · rw [if_pos hn]
      omega
    · rw [if_neg hn]
      have hk : 1 ≤ k := by
        rcases Nat.eq_zero_or_pos k with h0 | h1
        · subst h0
          rw [pow_zero] at hlt
          omega
        · exact h1
      have hdiv : n / 10 < 10 ^ (k - 1) := by
        rw [Nat.div_lt_iff_lt_mul (by norm_num)]
        calc n < 10 ^ k := hlt
          _ = 10 ^ (k - 1) * 10 := by
              rw [← pow_succ]
              congr 1
              omega
      have hrec : n / 10 ≤ fuel := by
        have : n / 10 < n := Nat.div_lt_self (Nat.pos_of_ne_zero hn) (by norm_num)
        omega
      have := natToDecAux_length fuel (n / 10) (Nat.digitChar (n % 10) :: acc) (k - 1)
        hrec hdiv
      simp only [List.length_cons] at this
      omega

theorem natToDec_length_le (n k : Nat) (h1 : n < 10 ^ k) (h2 : 1 ≤ k) :
    (natToDec n).data.length ≤ k := by
  unfold natToDec
  by_cases hn : n = 0
  · rw [if_pos hn]
    simpa using h2
  · rw [if_neg hn, data_mk]
    have := natToDecAux_length n n [] k (le_refl n) h1
    simpa using this

theorem leftPad0_data (w : Nat) (s : String) :
    (leftPad0 w s).data = List.replicate (w - s.length) '0' ++ s.data := by
  unfold leftPad0
  rw [String.data_append, data_mk]

theorem leftPad0_length (w : Nat) (s : String) (h : s.length ≤ w) :
    (leftPad0 w s).data.length = w := by
  rw [leftPad0_data]
  have h2 : s.data.length ≤ w := h
  have h3 : s.length = s.data.length := rfl
  simp only [List.length_append, List.length_replicate, h3]
  omega

theorem decVal_replicate_zero : ∀ (k : Nat) (l : List Char),
    decVal (List.replicate k '0' ++ l) = decVal l
  | 0, l => by simp
  | k + 1, l => by
    rw [List.replicate_succ, List.cons_append]
    have h0 : digitVal '0' = 0 := by decide
    simp [decVal, h0, decVal_replicate_zero k l]

theorem decVal_lt_pow : ∀ (cs : List Char), (∀ c ∈ cs, isDigitChar c) →
    decVal cs < 10 ^ cs.length
  | [], _ => by simp [decVal]
  | c :: cs, h => by
    have hc : isDigitChar c := h c (List.mem_cons_self _ _)
    have ih := decVal_lt_pow cs (fun d hd => h d (List.mem_cons_of_mem _ hd))
    have hd9 : digitVal c ≤ 9 := by
      unfold digitVal
      unfold isDigitChar at hc
      omega
    have h2 : digitVal c * 10 ^ cs.length ≤ 9 * 10 ^ cs.length :=
      Nat.mul_le_mul_right _ hd9
    simp only [decVal, List.length_cons, pow_succ]
    omega

theorem pyFormat04_nonneg (n : Int) (h : 0 ≤ n) :
    pyFormat04 n = leftPad0 4 (natToDec n.toNat) := by
  unfold pyFormat04
  rw [if_neg (by omega)]

theorem pyFormat04_nonneg_length (n : Int) (h0 : 0 ≤ n) (h1 : n ≤ 9999) :
    (pyFormat04 n).data.length = 4 := by
  rw [pyFormat04_nonneg n h0]
  apply leftPad0_length
  refine natToDec_length_le n.toNat 4 ?_ (by norm_num)
  have : n.toNat ≤ 9999 := by omega
  norm_num
  omega

theorem pyFormat04_decVal (n : Int) (h0 : 0 ≤ n) :
    decVal (pyFormat04 n).data = n.toNat := by
  rw [pyFormat04_nonneg n h0, leftPad0_data, decVal_replicate_zero, decVal_natToDec]

theorem pyFormat04_nonneg_isDigitChar (n : Int) (h0 : 0 ≤ n) :
    ∀ c ∈ (pyFormat04 n).data, isDigitChar c := by
  rw [pyFormat04_nonneg n h0, leftPad0_data]
  intro c hc
  rcases List.mem_append.mp hc with h | h
  · have : c = '0' := List.eq_of_mem_replicate h
    subst this
    decide
  · exact natToDec_isDigitChar _ c h

theorem lexLt_append_left (p a b : List Char) (h : lexLt a b = true) :
    lexLt (p ++ a) (p ++ b) = true := by
  induction p with
  | nil => exact h
  | cons c p ih =>
    simp only [List.cons_append, lexLt, Nat.lt_irrefl, if_neg (Nat.lt_irrefl c.toNat)]
    exact ih

theorem lexLt_append_of_length_eq (u v : List Char) :
    ∀ (a b : List Char), a.length = b.length → lexLt a b = true →
      lexLt (a ++ u) (b ++ v) = true
  | [], [], _, h => by simp [lexLt] at h
  | [], _ :: _, hlen, _ => by simp at hlen
  | _ :: _, [], hlen, _ => by simp at hlen
  | x :: xs, y :: ys, hlen, h => by
    simp only [List.cons_append, lexLt] at h ⊢
    split at h
    · rw [if_pos (by assumption)]
    · split at h
      · cases h
      · rw [if_neg (by assumption), if_neg (by assumption)]
        exact lexLt_append_of_length_eq u v xs ys (by simpa using hlen) h

theorem decVal_lt_imp_lexLt :
    ∀ (a b : List Char), a.length = b.length → (∀ c ∈ a, isDigitChar c) →
      (∀ c ∈ b, isDigitChar c) → decVal a < decVal b → lexLt a b = true
  | [], [], _, _, _, hv => absurd hv (by simp [decVal])
  | [], _ :: _, hlen, _, _, _ => by simp at hlen
  | _ :: _, [], hlen, _, _, _ => by simp at hlen
  | x :: xs, y :: ys, hlen, ha, hb, hv => by
    have hlt : xs.length = ys.length := by simpa using hlen
    have hx : isDigitChar x := ha x (List.mem_cons_self _ _)
    have hy : isDigitChar y := hb y (List.mem_cons_self _ _)
    simp only [lexLt]
    rcases Nat.lt_trichotomy x.toNat y.toNat with hc | hc | hc
    · rw [if_pos hc]
    · have hdv : digitVal x = digitVal y := by
        unfold digitVal
        omega
      have htail : decVal xs < decVal ys := by
        simp only [decVal] at hv
        rw [hlt, hdv] at hv
        omega
      rw [if_neg (by omega), if_neg (by omega)]
      exact decVal_lt_imp_lexLt xs ys hlt (fun c hc2 => ha c (List.mem_cons_of_mem _ hc2))
        (fun c hc2 => hb c (List.mem_cons_of_mem _ hc2)) htail
    · exfalso
      have hbnd : decVal ys < 10 ^ ys.length :=
        decVal_lt_pow ys (fun c hc2 => hb c (List.mem_cons_of_mem _ hc2))
      have h1 : digitVal y + 1 ≤ digitVal x := by
        unfold digitVal
        unfold isDigitChar at hx hy
        omega
      have h2 : (digitVal y + 1) * 10 ^ ys.length ≤ digitVal x * 10 ^ ys.length :=
        Nat.mul_le_mul_right _ h1
      rw [Nat.succ_mul] at h2
      simp only [decVal] at hv
      rw [hlt] at hv
      omega

/-! ## Claim C6 -/

/-- Counterexample to claim C6 as stated: for the non-negative page indices
9999 < 10000, the file name for 10000 (five digits) sorts lexicographically
before the file name for 9999, so the claim fails without an upper bound on
the index. -/
theorem c6_counterexample :
    lexLt (pageFileName 9999).data (pageFileName 10000).data = false ∧
    lexLt (pageFileName 10000).data (pageFileName 9999).data = true := by
  constructor
  · decide
  · decide

/-- Claim C6 (amended): for page indices 0 ≤ i < j ≤ 9999 — the range on
which the four-digit zero-padded format is fixed-width — the page file name
for i is lexicographically smaller than the one for j, so lexicographic and
numeric page ordering coincide on a directory listing. -/
theorem c6_page_names_lex_ordered (i j : Int) (h0 : 0 ≤ i) (hij : i < j) (hj : j ≤ 9999) :
    lexLt (pageFileName i).data (pageFileName j).data = true := by
  unfold pageFileName
  simp only [String.data_append, List.append_assoc]
  apply lexLt_append_left
  apply lexLt_append_of_length_eq
  · rw [pyFormat04_nonneg_length i h0 (by omega), pyFormat04_nonneg_length j (by omega) hj]
  · refine decVal_lt_imp_lexLt _ _ ?_ (pyFormat04_nonneg_isDigitChar i h0)
      (pyFormat04_nonneg_isDigitChar j (by omega)) ?_
    · rw [pyFormat04_nonneg_length i h0 (by omega), pyFormat04_nonneg_length j (by omega) hj]
    · rw [pyFormat04_decVal i h0, pyFormat04_decVal j (by omega)]
      omega

/-- Witness for the amended C6 at the concrete pair (3, 12). -/
theorem c6_witness : lexLt (pageFileName 3).data (pageFileName 12).data = true :=
  c6_page_names_lex_ordered 3 12 (by decide) (by decide) (by decide)

end OcrStorage
